import Mathlib

/-!
# External polymorphism: `ShapeConcept` / `ShapeModel<ShapeT>`

A shallow embedding of `external_polymorphism_pattern.cpp`.

* A C++ call returning `void` is a function from the world before the call to an
  `Outcome`: the world after the call, and the exception that left the call, if any.
  The world `σ` is everything a behaviour can observe or change from outside the
  adapter (what was written to `std::cout`, counters, captured state, ...).
* `std::function<void(const ShapeT&)>` is `StdFunction`: empty, or holding a target.
  Calling an empty one throws `std::bad_function_call`, as in the standard library.
* `ShapeConcept` is the record of its one virtual member; the conversion of a
  `ShapeModel<ShapeT>&` to `ShapeConcept&` fills it with `ShapeModel<ShapeT>::doAction`
  of that object.
* `std::cout` is the text written so far (a `String`), in its initial formatting state;
  writing to it does not fail.
* `ShapeModel` with `StdFunction` describes a model by value: the payload and the target
  as they are when `doAction` is entered. What `doAction` can do to the object itself
  (a target that updates state it captured, or writes a member through an alias) is
  described by `ShapeModelObject`, where the object is part of the memory the call runs on.
* Copy and move constructors of the payload type and of the handle are user or library
  code; construction takes them as `SpecialMembers`.
-/

namespace ExtPoly

/-! ## Calls, exceptions, sequencing -/

/-- Exceptions that can be in flight: the standard library's `std::bad_function_call`,
or anything a behaviour throws on its own (`ε`). -/
inductive Exn (ε : Type) where
  | bad_function_call : Exn ε
  | other (e : ε) : Exn ε
  deriving DecidableEq, Repr

/-- What a `void` call leaves behind: the world after it, and the exception that
escaped it (`none` when it returned normally). -/
structure Outcome (σ ε : Type) where
  world : σ
  thrown : Option (Exn ε)
  deriving DecidableEq, Repr

/-- A `void` call, as a function of the world it starts in. -/
abbrev Action (σ ε : Type) := σ → Outcome σ ε

/-- The empty statement: returns normally and touches nothing. -/
def Action.skip {σ ε : Type} : Action σ ε := fun w => ⟨w, none⟩

/-- Sequencing `a; b`: `b` runs in the world `a` left, unless `a` threw, in which case
the exception propagates and `b` never runs. -/
def Action.seq {σ ε : Type} (a b : Action σ ε) : Action σ ε := fun w =>
  match a w with
  | ⟨w1, none⟩ => b w1
  | ⟨w1, some e⟩ => ⟨w1, some e⟩

/-- The statement `a` executed `n` times in a row. -/
def Action.times {σ ε : Type} (a : Action σ ε) : Nat → Action σ ε
  | 0 => Action.skip
  | n + 1 => Action.seq a (Action.times a n)

/-- A list of statements executed first to last. -/
def Action.seqAll {σ ε : Type} : List (Action σ ε) → Action σ ε
  | [] => Action.skip
  | a :: rest => Action.seq a (Action.seqAll rest)

/-! ## `std::function<void(const ShapeT&)>` -/

/-- The type `std::function<void(const ShapeT&)>`: either empty or holding a callable target. -/
inductive StdFunction (ShapeT σ ε : Type) where
  | empty : StdFunction ShapeT σ ε
  | target (f : ShapeT → Action σ ε) : StdFunction ShapeT σ ε

/-- The conversion `explicit operator bool`: true exactly when a target is held. -/
def StdFunction.toBool {ShapeT σ ε : Type} : StdFunction ShapeT σ ε → Bool
  | .empty => false
  | .target _ => true

/-- The call `operator()(const ShapeT&)`: forwards to the target, and throws
`std::bad_function_call` when there is none. -/
def StdFunction.call {ShapeT σ ε : Type} : StdFunction ShapeT σ ε → ShapeT → Action σ ε
  | .target f, x => f x
  | .empty, _ => fun w => ⟨w, some Exn.bad_function_call⟩

/-! ## `ShapeConcept` and `ShapeModel<ShapeT>` -/

/-- The class `ShapeConcept`: the abstract interface, one pure virtual `doAction() const`. -/
structure ShapeConcept (σ ε : Type) where
  doAction : Action σ ε

/-- The class template `ShapeModel<ShapeT>`: its two data members, in declaration order. -/
structure ShapeModel (ShapeT σ ε : Type) where
  Strat : StdFunction ShapeT σ ε
  Shape : ShapeT

/-- The object that `ShapeModel<ShapeT>(shape, drawer)` denotes when copying and moving
are faithful: `Strat` holds `drawer` and `Shape` holds `shape` (see `ShapeModel.ctor`
for the constructor with its copy and move steps). -/
def ShapeModel.new {ShapeT σ ε : Type} (shape : ShapeT) (drawer : StdFunction ShapeT σ ε) :
    ShapeModel ShapeT σ ε :=
  { Strat := drawer, Shape := shape }

/-- The member `void doAction() const override { if (Strat) { Strat(Shape); } }`. -/
def ShapeModel.doAction {ShapeT σ ε : Type} (self : ShapeModel ShapeT σ ε) : Action σ ε :=
  if self.Strat.toBool then
    self.Strat.call self.Shape
  else
    Action.skip

/-- The derived-to-base conversion `ShapeModel<ShapeT>&` to `ShapeConcept&`: the virtual
`doAction` of the resulting reference is `ShapeModel<ShapeT>::doAction` on this object. -/
def ShapeModel.toShapeConcept {ShapeT σ ε : Type} (self : ShapeModel ShapeT σ ε) :
    ShapeConcept σ ε :=
  { doAction := self.doAction }

/-- The function `auto draw_item(ShapeConcept& sc) { sc.doAction(); }`. -/
def draw_item {σ ε : Type} (sc : ShapeConcept σ ε) : Action σ ε :=
  sc.doAction



/-! ## `double` and its default text on a stream -/

/-- A value of type `double`. A finite one is `(-1)^neg * mant * 2^exp`; every finite
binary64 value has this form (the type does not bound `mant` and `exp`, and formatting
depends only on the number denoted). -/
inductive Double where
  | finite (neg : Bool) (mant : Nat) (exp : Int) : Double
  | inf (neg : Bool) : Double
  | nan (neg : Bool) : Double
  deriving DecidableEq, Repr

/-- Largest `k` (at most `fuel`) with `den * 10 ^ k ≤ num`, counting up from `k`. -/
def log10Up (num den : Nat) : Nat → Nat → Nat
  | 0, k => k
  | fuel + 1, k => if den * 10 ^ (k + 1) ≤ num then log10Up num den fuel (k + 1) else k

/-- Least `k` (at most `fuel`) with `den ≤ num * 10 ^ k`, counting up from `k`. -/
def log10Down (num den : Nat) : Nat → Nat → Nat
  | 0, k => k
  | fuel + 1, k => if den ≤ num * 10 ^ k then k else log10Down num den fuel (k + 1)

/-- The decimal exponent of the positive rational `num / den`: the integer `x` with
`10 ^ x ≤ num / den < 10 ^ (x + 1)`. -/
def decimalExponent (num den : Nat) : Int :=
  if den ≤ num then (log10Up num den num 0 : Int) else - (log10Down num den den 0 : Int)

/-- Rounding `n / d` to the nearest integer, ties to even. -/
def roundHalfEven (n d : Nat) : Nat :=
  let q := n / d
  let r := n % d
  if 2 * r < d then q
  else if d < 2 * r then q + 1
  else if q % 2 = 0 then q else q + 1

/-- The decimal digits of `n`, left-padded with zeros to `width` characters. -/
def zeroPad (width n : Nat) : String :=
  let s := Nat.repr n
  String.mk (List.replicate (width - s.length) (Char.ofNat 48)) ++ s

/-- Removal of trailing zeros, as `%g` does without the `#` flag. -/
def stripZeros (s : String) : String :=
  String.mk (s.data.reverse.dropWhile (fun c => c == Char.ofNat 48)).reverse

/-- Digits after the decimal point: nothing when all were zeros, else a point and the digits. -/
def fraction (width n : Nat) : String :=
  let f := stripZeros (zeroPad width n)
  if f = "" then "" else "." ++ f

/-- The conversion `%g` with precision 6 of the positive rational `num / den`. -/
def formatG6 (num den : Nat) : String :=
  let x0 := decimalExponent num den
  -- six significant digits: num / den scaled by 10 ^ (5 - x0), rounded
  let d0 := if x0 ≤ 5 then roundHalfEven (num * 10 ^ (5 - x0).toNat) den
            else roundHalfEven num (den * 10 ^ (x0 - 5).toNat)
  let x := if d0 = 1000000 then x0 + 1 else x0
  let d := if d0 = 1000000 then 100000 else d0
  if -4 ≤ x ∧ x < 6 then
    let width := (5 - x).toNat
    Nat.repr (d / 10 ^ width) ++ fraction width (d % 10 ^ width)
  else
    Nat.repr (d / 100000) ++ fraction 5 (d % 100000) ++ "e" ++
      (if x < 0 then "-" else "+") ++ zeroPad 2 x.natAbs

/-- The text `std::ostream::operator<<(double)` produces in the default formatting state
of a stream (no `floatfield` flag, precision 6, classic locale): the conversion `%g`.
Infinities and NaNs are spelled `inf` and `nan`. -/
def formatDouble : Double → String
  | .finite neg mant exp =>
    (if neg then "-" else "") ++
      (if mant = 0 then "0"
       else if 0 ≤ exp then formatG6 (mant * 2 ^ exp.toNat) 1
       else formatG6 mant (2 ^ (-exp).toNat))
  | .inf neg => (if neg then "-" else "") ++ "inf"
  | .nan neg => (if neg then "-" else "") ++ "nan"


/-- The `double` that a decimal literal with integer value `n` denotes, such as `2.0`
(exact for `n` below `2^53`). -/
def Double.ofNat (n : Nat) : Double := .finite false n 0

/-! ## `std::cout` -/

/-- The statement `std::cout << s` for a string literal or a character: appends the text. -/
def insertString {ε : Type} (s : String) : Action String ε := fun out => ⟨out ++ s, none⟩

/-- The statement `std::cout << d` for a `double`: appends its default text. -/
def insertDouble {ε : Type} (d : Double) : Action String ε := fun out =>
  ⟨out ++ formatDouble d, none⟩

/-! ## The sample payloads, behaviours and driver -/

/-- The class `Circle`: one private member `double m_radius{}`. -/
structure Circle where
  m_radius : Double
  deriving DecidableEq, Repr

/-- The constructor `explicit Circle(double rad) : m_radius(rad) { }`. -/
def Circle.new (rad : Double) : Circle := { m_radius := rad }

/-- The member `double Radius() const { return m_radius; }`. -/
def Circle.Radius (self : Circle) : Double := self.m_radius

/-- The class `Square`: one private member `double m_side{}`. -/
structure Square where
  m_side : Double
  deriving DecidableEq, Repr

/-- The constructor `explicit Square(double side) : m_side(side) { }`. -/
def Square.new (side : Double) : Square := { m_side := side }

/-- The member `double Side() const { return m_side; }`. -/
def Square.Side (self : Square) : Double := self.m_side

/-- The function `draw_circle`: `std::cout << "Rad: " << c.Radius() << (newline)`. -/
def draw_circle {ε : Type} (c : Circle) : Action String ε :=
  Action.seq (Action.seq (insertString "Rad: ") (insertDouble c.Radius)) (insertString "\n")

/-- The function `draw_square`: `std::cout << "Side: " << sq.Side() << (newline)`. -/
def draw_square {ε : Type} (sq : Square) : Action String ε :=
  Action.seq (Action.seq (insertString "Side: ") (insertDouble sq.Side)) (insertString "\n")

/-- The function `do_ext_poly_test`: two payloads, a model around each with its draw
function (a function name converts to a non-empty `std::function`), and `draw_item`
on the first model, then on the second. -/
def do_ext_poly_test {ε : Type} : Action String ε :=
  let c := Circle.new (Double.ofNat 2)
  let sq := Square.new (Double.ofNat 3)
  let smc : ShapeModel Circle String ε := ShapeModel.new c (.target draw_circle)
  let smsq : ShapeModel Square String ε := ShapeModel.new sq (.target draw_square)
  Action.seq (draw_item smc.toShapeConcept) (draw_item smsq.toShapeConcept)


/-! ## Reference points the properties are stated against -/

/-- The effect a model is bound to: its own behaviour applied to its own payload, and
nothing at all when the behaviour is empty. -/
def ownEffect {ShapeT σ ε : Type} (B : StdFunction ShapeT σ ε) (v : ShapeT) : Action σ ε :=
  match B with
  | .target f => f v
  | .empty => Action.skip

/-- A behaviour that only prints: it appends the text `g x` to the console. -/
def printing {ShapeT ε : Type} (g : ShapeT → String) : ShapeT → Action String ε :=
  fun x out => ⟨out ++ g x, none⟩

/-- A collection of models of any payload types, each seen through a `ShapeConcept` reference. -/
def asConcepts {σ ε : Type} (ms : List (Σ ShapeT : Type, ShapeModel ShapeT σ ε)) :
    List (ShapeConcept σ ε) :=
  ms.map (fun m => m.2.toShapeConcept)

/-- The driver pattern of `do_ext_poly_test` over any sequence of references:
`draw_item` on each, first to last. -/
def drawAll {σ ε : Type} (scs : List (ShapeConcept σ ε)) : Action σ ε :=
  Action.seqAll (scs.map draw_item)

/-- The texts of a list, one after the other. -/
def concatAll : List String → String
  | [] => ""
  | s :: rest => s ++ concatAll rest

/-! ## The model object in memory -/

/-- A `ShapeModel<ShapeT>` object as it lies in memory: the data in its handle (`H`: no
target, or a target together with the state that target carries) and its payload. Both
members are public and neither is `const`, so code that holds a pointer or reference to
the object can write them. -/
structure ShapeModelObject (H ShapeT : Type) where
  Strat : H
  Shape : ShapeT
  deriving DecidableEq, Repr

/-- The program text behind handle data: whether a handle holds a target, and what calling
the held target does. The target runs on the memory it can reach: the object that holds
it (its captured state is in the handle of the object, the payload it is handed is the
`Shape` of the object, and an alias it captured lets it write either member) and the
rest of the world. -/
structure TargetCode (H ShapeT σ ε : Type) where
  holdsTarget : H → Bool
  invoke : Action (ShapeModelObject H ShapeT × σ) ε

/-- The call `Strat(Shape)` on the object: `std::function::operator()`, which forwards to
the held target and throws `std::bad_function_call` when there is none. -/
def TargetCode.call {H ShapeT σ ε : Type} (code : TargetCode H ShapeT σ ε) :
    Action (ShapeModelObject H ShapeT × σ) ε := fun s =>
  if code.holdsTarget s.1.Strat then code.invoke s else ⟨s, some Exn.bad_function_call⟩

/-- The member `void doAction() const override { if (Strat) { Strat(Shape); } }` run on the
object in memory: it has no statement that writes a member; what the call of the target
does to the object is passed on. -/
def ShapeModelObject.doAction {H ShapeT σ ε : Type} (code : TargetCode H ShapeT σ ε) :
    Action (ShapeModelObject H ShapeT × σ) ε := fun s =>
  if code.holdsTarget s.1.Strat then
    code.call s
  else
    Action.skip s

/-- The object in memory of a model given by value. -/
def ShapeModel.toObject {ShapeT σ ε : Type} (m : ShapeModel ShapeT σ ε) :
    ShapeModelObject (StdFunction ShapeT σ ε) ShapeT :=
  { Strat := m.Strat, Shape := m.Shape }

/-- The code of handles given by value as `StdFunction`: the target is applied to the
payload and touches the world only, not the object that holds it. -/
def TargetCode.ofStdFunction {ShapeT σ ε : Type} :
    TargetCode (StdFunction ShapeT σ ε) ShapeT σ ε :=
  { holdsTarget := StdFunction.toBool
    invoke := fun s =>
      ⟨(s.1, (s.1.Strat.call s.1.Shape s.2).world), (s.1.Strat.call s.1.Shape s.2).thrown⟩ }

/-- The code of the target `[n = 0](const Circle&) mutable { std::cout << ++n; }`: the
handle data is the captured `n` (or nothing, for an empty handle); each call increments
it and prints it. -/
def countingCode {ε : Type} : TargetCode (Option Nat) Circle String ε :=
  { holdsTarget := Option.isSome
    invoke := fun s =>
      match s.1.Strat with
      | some n => ⟨({ Strat := some (n + 1), Shape := s.1.Shape }, s.2 ++ Nat.repr (n + 1)), none⟩
      | none => ⟨s, none⟩ }

/-- The code of a target that captured a reference `m` to the model it is stored in:
`[&m](const Circle& c) { std::cout << c.Radius(); m.Shape = Circle(5.0); }`. The handle
data only says whether the target is held. -/
def aliasCode {ε : Type} : TargetCode Bool Circle String ε :=
  { holdsTarget := fun held => held
    invoke := fun s =>
      ⟨({ Strat := s.1.Strat, Shape := Circle.new (Double.ofNat 5) },
        s.2 ++ formatDouble s.1.Shape.Radius), none⟩ }

theorem doAction_new_target {ShapeT σ ε : Type} (v : ShapeT) (f : ShapeT → Action σ ε) :
    (ShapeModel.new v (StdFunction.target f)).doAction = f v := by
  rfl

theorem doAction_new_empty {ShapeT σ ε : Type} (v : ShapeT) :
    (ShapeModel.new v (StdFunction.empty : StdFunction ShapeT σ ε)).doAction = Action.skip := by
  rfl

theorem doAction_eq_ownEffect {ShapeT σ ε : Type} (m : ShapeModel ShapeT σ ε) :
    m.doAction = ownEffect m.Strat m.Shape := by
  obtain ⟨strat, shape⟩ := m
  cases strat <;> rfl

theorem times_skip {σ ε : Type} (n : Nat) (w : σ) :
    Action.times (Action.skip : Action σ ε) n w = ⟨w, none⟩ := by
  induction n with
  | zero => rfl
  | succ k ih => simpa [Action.times, Action.seq, Action.skip] using ih

theorem seq_insert {ε : Type} (s : String) (b : Action String ε) (out : String) :
    Action.seq (insertString s) b out = b (out ++ s) := by
  rfl

theorem formatDouble_two : formatDouble (Double.ofNat 2) = "2" := by decide

theorem formatDouble_three : formatDouble (Double.ofNat 3) = "3" := by decide

theorem draw_circle_eq {ε : Type} (c : Circle) (out : String) :
    (draw_circle c : Action String ε) out
      = ⟨out ++ ("Rad: " ++ formatDouble c.Radius ++ "\n"), none⟩ := by
  simp [draw_circle, Action.seq, insertString, insertDouble, String.append_assoc]

theorem draw_square_eq {ε : Type} (sq : Square) (out : String) :
    (draw_square sq : Action String ε) out
      = ⟨out ++ ("Side: " ++ formatDouble sq.Side ++ "\n"), none⟩ := by
  simp [draw_square, Action.seq, insertString, insertDouble, String.append_assoc]


/-! ## The adapter forwards, once, to its own behaviour and payload -/

/-- C2: for every payload type and value `v`, `doAction` on `ShapeModel<T>(v, empty)`
returns normally and leaves the world as it was, through the object, through a
`ShapeConcept` reference and through `draw_item`; any number of invocations in a row
still returns normally with the world unchanged. -/
theorem C2_empty_behaviour_is_silent_no_op {ShapeT σ ε : Type} (v : ShapeT) (w : σ) :
    (ShapeModel.new v (StdFunction.empty : StdFunction ShapeT σ ε)).doAction w = ⟨w, none⟩
    ∧ (ShapeModel.new v (StdFunction.empty : StdFunction ShapeT σ ε)).toShapeConcept.doAction w
        = ⟨w, none⟩
    ∧ draw_item (ShapeModel.new v (StdFunction.empty : StdFunction ShapeT σ ε)).toShapeConcept w
        = ⟨w, none⟩
    ∧ ∀ n : Nat,
        Action.times (ShapeModel.new v (StdFunction.empty : StdFunction ShapeT σ ε)).doAction n w
          = ⟨w, none⟩ := by
  refine ⟨rfl, rfl, rfl, ?_⟩
  intro n
  rw [doAction_new_empty]
  exact times_skip n w

/-- C5: for a model whose behaviour is the non-empty `B`, if `B` applied to the stored
payload throws `e`, then `doAction` throws the same `e` and leaves the same world (its
whole outcome is that of `B`); and for any model, `doAction` throws `e` only if its
behaviour is non-empty and throws `e` on the stored payload from the same world (in
particular the `std::bad_function_call` of an empty handle never arises from the adapter). -/
theorem C5_failure_is_the_behaviours_failure {ShapeT σ ε : Type}
    (m : ShapeModel ShapeT σ ε) (w : σ) (e : Exn ε) :
    (∀ B : ShapeT → Action σ ε, m.Strat = StdFunction.target B →
        (B m.Shape w).thrown = some e →
          (m.doAction w).thrown = some e ∧ m.doAction w = B m.Shape w)
    ∧ ((m.doAction w).thrown = some e →
        ∃ B : ShapeT → Action σ ε, m.Strat = StdFunction.target B
          ∧ (B m.Shape w).thrown = some e) := by
  obtain ⟨strat, shape⟩ := m
  constructor
  · intro B hB hthrow
    simp only at hB
    subst hB
    exact ⟨hthrow, rfl⟩
  · intro h
    cases strat with
    | empty => simp [ShapeModel.doAction, StdFunction.toBool, Action.skip] at h
    | target f => exact ⟨f, rfl, h⟩

/-- Witness for C5: a behaviour that prints `x` and then throws error 7; `doAction`
leaves `x` printed and throws that same error. -/
theorem C5_failure_witness :
    ((ShapeModel.new (Circle.new (Double.ofNat 2))
        (StdFunction.target (fun _ out => ⟨out ++ "x", some (Exn.other 7)⟩)) :
          ShapeModel Circle String Nat).doAction "").thrown = some (Exn.other 7)
    ∧ (ShapeModel.new (Circle.new (Double.ofNat 2))
        (StdFunction.target (fun _ out => ⟨out ++ "x", some (Exn.other 7)⟩)) :
          ShapeModel Circle String Nat).doAction ""
        = ⟨"x", some (Exn.other 7)⟩ :=
  (C5_failure_is_the_behaviours_failure
    (ShapeModel.new (Circle.new (Double.ofNat 2))
      (StdFunction.target (fun _ out => ⟨out ++ "x", some (Exn.other 7)⟩)) :
        ShapeModel Circle String Nat) "" (Exn.other 7)).1
    (fun _ out => ⟨out ++ "x", some (Exn.other 7)⟩) rfl rfl

/-! ## Sequences of models -/

/-- C3: for every finite sequence of models, of any mix of payload types, held as
`ShapeConcept` references, invoking `doAction` on each in order (directly or through
`draw_item`) is the sequence, in the same order, of each model applying its own
behaviour to its own payload; and when the models are built from printing behaviours
the console gains exactly the concatenation, in order, of each behaviour's text for its
own payload. -/
theorem C3_sequence_dispatches_each_to_its_own_pair {σ ε : Type}
    (ms : List (Σ ShapeT : Type, ShapeModel ShapeT σ ε)) :
    drawAll (asConcepts ms) = Action.seqAll (ms.map (fun m => ownEffect m.2.Strat m.2.Shape))
    ∧ Action.seqAll ((asConcepts ms).map (fun sc => sc.doAction))
        = Action.seqAll (ms.map (fun m => ownEffect m.2.Strat m.2.Shape))
    ∧ ∀ (ps : List (Σ ShapeT : Type, ShapeT × (ShapeT → String))) (out : String),
        drawAll (asConcepts (ps.map (fun p =>
            (⟨p.1, ShapeModel.new p.2.1 (StdFunction.target (printing p.2.2))⟩ :
              Σ ShapeT : Type, ShapeModel ShapeT String ε)))) out
          = ⟨out ++ concatAll (ps.map (fun p => p.2.2 p.2.1)), none⟩ := by
  have hmap : (asConcepts ms).map draw_item
      = ms.map (fun m => ownEffect m.2.Strat m.2.Shape) := by
    simp only [asConcepts, List.map_map]
    apply List.map_congr_left
    intro m _
    exact doAction_eq_ownEffect m.2
  refine ⟨?_, ?_, ?_⟩
  · rw [drawAll, hmap]
  · exact congrArg Action.seqAll hmap
  · intro ps
    induction ps with
    | nil =>
      intro out
      simp [drawAll, asConcepts, Action.seqAll, Action.skip, concatAll]
    | cons p rest ih =>
      intro out
      have hrest := ih (out ++ p.2.2 p.2.1)
      simp only [drawAll, asConcepts, List.map_cons, List.map_map, Action.seqAll] at hrest ⊢
      simp only [Action.seq, Function.comp, draw_item, ShapeModel.toShapeConcept,
        doAction_new_target, printing, concatAll]
      rw [← String.append_assoc]
      exact hrest

/-! ## The sample shapes -/

/-- C8: `doAction` on `ShapeModel<Circle>(Circle(2.0), draw_circle)` appends exactly the
line `Rad: 2` and returns normally; for every circle `c` it appends exactly `Rad: `,
the default text of `c.Radius()` and a newline; and `Radius()` of `Circle(rad)` is `rad`. -/
theorem C8_circle_model_prints_radius {ε : Type} :
    (∀ out : String,
      (ShapeModel.new (Circle.new (Double.ofNat 2))
        (StdFunction.target (draw_circle : Circle → Action String ε))).doAction out
        = ⟨out ++ "Rad: 2\n", none⟩)
    ∧ (∀ (c : Circle) (out : String),
      (ShapeModel.new c (StdFunction.target (draw_circle : Circle → Action String ε))).doAction out
        = ⟨out ++ ("Rad: " ++ formatDouble c.Radius ++ "\n"), none⟩)
    ∧ ∀ rad : Double, (Circle.new rad).Radius = rad := by
  refine ⟨?_, ?_, ?_⟩
  · intro out
    rw [doAction_new_target, draw_circle_eq]
    have h2 : (Circle.new (Double.ofNat 2)).Radius = Double.ofNat 2 := rfl
    rw [h2, formatDouble_two]
    rfl
  · intro c out
    rw [doAction_new_target, draw_circle_eq]
  · intro rad
    rfl

/-- C9: `doAction` on `ShapeModel<Square>(Square(3.0), draw_square)` appends exactly the
line `Side: 3` and returns normally; for every square `sq` it appends exactly `Side: `,
the default text of `sq.Side()` and a newline; and `Side()` of `Square(side)` is `side`. -/
theorem C9_square_model_prints_side {ε : Type} :
    (∀ out : String,
      (ShapeModel.new (Square.new (Double.ofNat 3))
        (StdFunction.target (draw_square : Square → Action String ε))).doAction out
        = ⟨out ++ "Side: 3\n", none⟩)
    ∧ (∀ (sq : Square) (out : String),
      (ShapeModel.new sq (StdFunction.target (draw_square : Square → Action String ε))).doAction out
        = ⟨out ++ ("Side: " ++ formatDouble sq.Side ++ "\n"), none⟩)
    ∧ ∀ side : Double, (Square.new side).Side = side := by
  refine ⟨?_, ?_, ?_⟩
  · intro out
    rw [doAction_new_target, draw_square_eq]
    have h3 : (Square.new (Double.ofNat 3)).Side = Double.ofNat 3 := rfl
    rw [h3, formatDouble_three]
    rfl
  · intro sq out
    rw [doAction_new_target, draw_square_eq]
  · intro side
    rfl

/-- C7: `do_ext_poly_test`, started on an empty console, returns normally having written
exactly `Rad: 2`, newline, `Side: 3`, newline; started after any earlier output it
appends exactly that text. -/
theorem C7_driver_writes_two_lines {ε : Type} :
    (do_ext_poly_test : Action String ε) "" = ⟨"Rad: 2\nSide: 3\n", none⟩
    ∧ ∀ out : String,
        (do_ext_poly_test : Action String ε) out = ⟨out ++ "Rad: 2\nSide: 3\n", none⟩ := by
  have hgen : ∀ out : String,
      (do_ext_poly_test : Action String ε) out = ⟨out ++ "Rad: 2\nSide: 3\n", none⟩ := by
    intro out
    have hc : (Circle.new (Double.ofNat 2)).Radius = Double.ofNat 2 := rfl
    have hs : (Square.new (Double.ofNat 3)).Side = Double.ofNat 3 := rfl
    simp only [do_ext_poly_test, draw_item, ShapeModel.toShapeConcept, doAction_new_target,
      Action.seq, draw_circle_eq, draw_square_eq, hc, hs, formatDouble_two, formatDouble_three,
      String.append_assoc]
    rfl
  exact ⟨by simpa using hgen "", hgen⟩


/-! ## Same payload, different behaviours -/

theorem objectDoAction_ofStdFunction {ShapeT σ ε : Type} (m : ShapeModel ShapeT σ ε) (w : σ) :
    ShapeModelObject.doAction TargetCode.ofStdFunction (m.toObject, w)
      = ⟨(m.toObject, (m.doAction w).world), (m.doAction w).thrown⟩ := by
  obtain ⟨strat, shape⟩ := m
  cases strat <;> rfl

theorem objectDoAction_keeps_object {H ShapeT σ ε : Type} (code : TargetCode H ShapeT σ ε)
    (obj : ShapeModelObject H ShapeT)
    (hframe : code.holdsTarget obj.Strat = true →
      ∀ w : σ, (code.invoke (obj, w)).world.1 = obj) (w : σ) :
    (ShapeModelObject.doAction code (obj, w)).world.1 = obj := by
  unfold ShapeModelObject.doAction TargetCode.call
  by_cases h : code.holdsTarget obj.Strat = true
  · simp only [h, if_true]
    exact hframe h w
  · simp only [h]
    rfl

/-- C6 as stated fails: `doAction` can leave the model changed. (a) With the counting
target (a lambda that increments and prints a captured counter) one invocation turns
the handle data from 0 into 1, and two invocations print `12`, not the same text
twice. (b) With a target that writes the payload through a reference to its own model,
one invocation on `Circle(2.0)` leaves `Circle(5.0)` stored, and two invocations print
`25`: the second one dispatches to another payload. -/
theorem C6_counterexample_target_changes_the_model :
    (ShapeModelObject.doAction (countingCode : TargetCode (Option Nat) Circle String Nat)
        ({ Strat := some 0, Shape := Circle.new (Double.ofNat 2) }, ""))
      = ⟨({ Strat := some 1, Shape := Circle.new (Double.ofNat 2) }, "1"), none⟩
    ∧ (Action.times (ShapeModelObject.doAction
          (countingCode : TargetCode (Option Nat) Circle String Nat)) 2
        ({ Strat := some 0, Shape := Circle.new (Double.ofNat 2) }, ""))
      = ⟨({ Strat := some 2, Shape := Circle.new (Double.ofNat 2) }, "12"), none⟩
    ∧ (ShapeModelObject.doAction (aliasCode : TargetCode Bool Circle String Nat)
        ({ Strat := true, Shape := Circle.new (Double.ofNat 2) }, ""))
      = ⟨({ Strat := true, Shape := Circle.new (Double.ofNat 5) }, "2"), none⟩
    ∧ (Action.times (ShapeModelObject.doAction (aliasCode : TargetCode Bool Circle String Nat)) 2
        ({ Strat := true, Shape := Circle.new (Double.ofNat 2) }, ""))
      = ⟨({ Strat := true, Shape := Circle.new (Double.ofNat 5) }, "25"), none⟩
    ∧ (⟨some 1, Circle.new (Double.ofNat 2)⟩ : ShapeModelObject (Option Nat) Circle)
        ≠ ⟨some 0, Circle.new (Double.ofNat 2)⟩
    ∧ (⟨true, Circle.new (Double.ofNat 5)⟩ : ShapeModelObject Bool Circle)
        ≠ ⟨true, Circle.new (Double.ofNat 2)⟩ := by
  refine ⟨by decide, by decide, by decide, by decide, by decide, by decide⟩

/-- C6 amended: when the behaviour of a model is empty, or its target leaves the model
object as it found it (it updates no state held in the handle and writes neither member
through an alias), `doAction` leaves the model unchanged, whether it returns or throws:
after one invocation and after any number of them the stored payload and handle are the
ones the object had, and each invocation is the call of that same target on that same
payload (nothing, for an empty handle). `doAction` has no write of its own. -/
theorem C6_model_unchanged_when_target_leaves_it {H ShapeT σ ε : Type}
    (code : TargetCode H ShapeT σ ε) (obj : ShapeModelObject H ShapeT)
    (hframe : code.holdsTarget obj.Strat = true →
      ∀ w : σ, (code.invoke (obj, w)).world.1 = obj) :
    (∀ w : σ, (ShapeModelObject.doAction code (obj, w)).world.1 = obj)
    ∧ (∀ (n : Nat) (w : σ),
        (Action.times (ShapeModelObject.doAction code) n (obj, w)).world.1 = obj)
    ∧ (∀ (n : Nat) (w : σ),
        ShapeModelObject.doAction code
            (Action.times (ShapeModelObject.doAction code) n (obj, w)).world
          = if code.holdsTarget obj.Strat then
              code.invoke
                (obj, (Action.times (ShapeModelObject.doAction code) n (obj, w)).world.2)
            else
              ⟨(obj, (Action.times (ShapeModelObject.doAction code) n (obj, w)).world.2),
                none⟩) := by
  have hstep := objectDoAction_keeps_object code obj hframe
  have htimes : ∀ (n : Nat) (w : σ),
      (Action.times (ShapeModelObject.doAction code) n (obj, w)).world.1 = obj := by
    intro n
    induction n with
    | zero => intro w; rfl
    | succ k ih =>
      intro w
      have h1 := hstep w
      simp only [Action.times, Action.seq]
      cases hres : ShapeModelObject.doAction code (obj, w) with
      | mk s1 t =>
        rw [hres] at h1
        obtain ⟨o1, w1⟩ := s1
        simp only at h1
        subst h1
        cases t with
        | none => exact ih w1
        | some e => rfl
  refine ⟨hstep, htimes, ?_⟩
  intro n w
  have hobj := htimes n w
  generalize (Action.times (ShapeModelObject.doAction code) n (obj, w)).world = s at hobj ⊢
  obtain ⟨o1, w1⟩ := s
  simp only at hobj
  subst hobj
  unfold ShapeModelObject.doAction TargetCode.call
  by_cases h : code.holdsTarget o1.Strat = true
  · simp only [h, if_true]
  · simp only [h]
    rfl

/-- Witness for C6 amended: the model of `Circle(2.0)` with `draw_circle`, whose target
only prints; its object is the same after two invocations. -/
theorem C6_amended_witness :
    (∀ w : String,
      ((TargetCode.ofStdFunction : TargetCode (StdFunction Circle String Nat) Circle String Nat).invoke
        ((ShapeModel.new (Circle.new (Double.ofNat 2))
            (StdFunction.target draw_circle)).toObject, w)).world.1
        = (ShapeModel.new (Circle.new (Double.ofNat 2)) (StdFunction.target draw_circle)).toObject)
    ∧ (Action.times (ShapeModelObject.doAction
          (TargetCode.ofStdFunction : TargetCode (StdFunction Circle String Nat) Circle String Nat))
        2 ((ShapeModel.new (Circle.new (Double.ofNat 2))
            (StdFunction.target draw_circle)).toObject, "")).world.1
        = (ShapeModel.new (Circle.new (Double.ofNat 2)) (StdFunction.target draw_circle)).toObject :=
  ⟨fun _ => rfl,
   (C6_model_unchanged_when_target_leaves_it TargetCode.ofStdFunction
      (ShapeModel.new (Circle.new (Double.ofNat 2)) (StdFunction.target draw_circle)).toObject
      (fun _ _ => rfl)).2.1 2 ""⟩


/-! ## Construction -/

end ExtPoly
